import Mathlib

/-!
Verification of the USB-Monitor reconciliation engine, port monitor and
speed prober (shallow embedding of `src/core/device_monitor.py`,
`src/core/port_monitor.py` and `src/core/speed_test.py`).

Modelling conventions:
* `datetime` values are abstract clock ticks (`Nat`); every state-changing
  operation that reads the wall clock takes the current tick as a `now`
  argument.  `datetime.isoformat` / `datetime.fromisoformat` are modelled by
  an injective encoding `isoformat : Nat → String` together with its partial
  inverse `fromisoformat : String → Option Nat`, which returns `none` on
  strings outside the image (Python raises `ValueError`, which the callers
  catch and turn into `None`).
* Registered callbacks are modelled by the list of events a call fires, in
  firing order, with the record value passed to the callback as payload.
* Python mutates the matched record in place; the model replaces the first
  record with the matching identity key inside the list, which is the same
  observable behaviour.
-/

/-- `USBDevice` dataclass from `device_monitor.py` (field defaults as in the
source; timestamps are abstract ticks, `none` standing for Python `None`). -/
structure USBDevice where
  name : String
  description : String := ""
  device_id : String := ""
  manufacturer : String := ""
  product_id : String := ""
  vendor_id : String := ""
  serial_number : String := ""
  device_type : String := ""
  usb_version : String := ""
  power_consumption : String := ""
  driver_version : String := ""
  is_connected : Bool := true
  connection_status : String := "Connected"
  port_number : String := ""
  first_seen : Option Nat := none
  last_seen : Option Nat := none
  deriving Repr, DecidableEq

/-- `USBDevice.__post_init__`: replaces a `None` timestamp by the current
clock value. -/
def USBDevice.postInit (now : Nat) (d : USBDevice) : USBDevice :=
  { d with
    first_seen := some (d.first_seen.getD now)
    last_seen := some (d.last_seen.getD now) }

/-- One callback firing of the device monitor, with the record value the
callback receives. -/
inductive DevEvent where
  | connected (d : USBDevice)
  | disconnected (d : USBDevice)
  | updated (d : USBDevice)
  deriving Repr, DecidableEq

/-- Mutable state of `DeviceMonitor`: `self.devices` and
`self.device_history`. -/
structure DevState where
  devices : List USBDevice := []
  device_history : List USBDevice := []
  deriving Repr, DecidableEq

/-- `DeviceMonitor._find_device_by_id`: first record with the given key. -/
def find_device_by_id (devices : List USBDevice) (device_id : String) : Option USBDevice :=
  devices.find? (fun d => d.device_id == device_id)

/-- In-place mutation of the first record with the given key, modelled as a
functional replacement. -/
def setFirstDeviceById (devices : List USBDevice) (device_id : String) (d : USBDevice) :
    List USBDevice :=
  match devices with
  | [] => []
  | x :: xs =>
      if x.device_id == device_id then d :: xs
      else x :: setFirstDeviceById xs device_id d

/-- The `else` branch of `_update_device_list`s snapshot loop: update an
existing record from the new observation.  A flag change rewrites
`is_connected`/`connection_status` and fires the transition callback (with
the record as mutated so far); then `last_seen` is set and `on_device_updated`
fires unconditionally.  Descriptive fields are not touched. -/
def update_existing_device (now : Nat) (ex cur : USBDevice) : USBDevice × List DevEvent :=
  let flagged :=
    if ex.is_connected != cur.is_connected then
      let ex1 := { ex with
        is_connected := cur.is_connected
        connection_status := if cur.is_connected then "Connected" else "Disconnected" }
      (ex1, if cur.is_connected then [DevEvent.connected ex1] else [DevEvent.disconnected ex1])
    else (ex, ([] : List DevEvent))
  let ex2 := { flagged.1 with last_seen := some now }
  (ex2, flagged.2 ++ [DevEvent.updated ex2])

/-- Processing of one snapshot entity inside the first loop of
`_update_device_list`: unknown key appends to `devices` and
`device_history` and fires `on_device_connected`; known key runs the update
branch on the first matching record. -/
def device_snapshot_step (now : Nat) (st : DevState) (cur : USBDevice) :
    DevState × List DevEvent :=
  match find_device_by_id st.devices cur.device_id with
  | none =>
      ({ devices := st.devices ++ [cur], device_history := st.device_history ++ [cur] },
       [DevEvent.connected cur])
  | some ex =>
      let upd := update_existing_device now ex cur
      ({ st with devices := setFirstDeviceById st.devices cur.device_id upd.1 }, upd.2)

/-- Sequential fold of a state-and-events step over a list (the shape of both
snapshot loops; events accumulate in firing order). -/
def stepFold {σ ε α : Type} (step : σ → α → σ × List ε) (st : σ) (xs : List α) :
    σ × List ε :=
  xs.foldl (fun acc x => ((step acc.1 x).1, acc.2 ++ (step acc.1 x).2)) (st, [])

/-- First loop of `_update_device_list`: process the snapshot entities in
snapshot order. -/
def process_snapshot_devices (now : Nat) (st : DevState) (current : List USBDevice) :
    DevState × List DevEvent :=
  stepFold (device_snapshot_step now) st current

/-- Per-record body of the second loop of `_update_device_list`: a record
whose key is absent from the snapshot and which is still connected is flipped
to disconnected and `on_device_disconnected` fires. -/
def mark_missing_device (current : List USBDevice) (d : USBDevice) :
    USBDevice × List DevEvent :=
  if current.any (fun c => c.device_id == d.device_id) then (d, [])
  else if d.is_connected then
    let d1 := { d with is_connected := false, connection_status := "Disconnected" }
    (d1, [DevEvent.disconnected d1])
  else (d, [])

/-- Second loop of `_update_device_list`.  Each record is mutated
independently of the others, so the sequential loop is a map; events fire in
list order.  The history is not touched. -/
def mark_missing_devices (st : DevState) (current : List USBDevice) :
    DevState × List DevEvent :=
  ({ st with devices := st.devices.map (fun d => (mark_missing_device current d).1) },
   (st.devices.map (fun d => (mark_missing_device current d).2)).flatten)

/-- `DeviceMonitor._update_device_list`: snapshot loop, then
mark-missing loop. -/
def update_device_list (now : Nat) (st : DevState) (current : List USBDevice) :
    DevState × List DevEvent :=
  let p1 := process_snapshot_devices now st current
  let p2 := mark_missing_devices p1.1 current
  (p2.1, p1.2 ++ p2.2)

/-- `DeviceMonitor._scan_devices`: a raising provider (`none`) is caught and
the tick is a no-op; a returned list is reconciled. -/
def scan_devices (now : Nat) (st : DevState) (snapshot : Option (List USBDevice)) :
    DevState × List DevEvent :=
  match snapshot with
  | none => (st, [])
  | some current => update_device_list now st current

/-- A sequence of ticks, each with its clock value and provider outcome. -/
def run_device_ticks (ticks : List (Nat × Option (List USBDevice))) (st : DevState) :
    DevState :=
  ticks.foldl (fun s t => (scan_devices t.1 s t.2).1) st

/-- `COMPort` dataclass from `port_monitor.py` (field defaults as in the
source). -/
structure COMPort where
  port_name : String
  device_name : String := ""
  description : String := ""
  baud_rate : Nat := 9600
  data_bits : Nat := 8
  stop_bits : Nat := 1
  parity : String := "N"
  flow_control : String := "None"
  is_available : Bool := true
  is_open : Bool := false
  last_used : Option Nat := none
  manufacturer : String := ""
  product_id : String := ""
  vendor_id : String := ""
  serial_number : String := ""
  created_at : Option Nat := none
  deriving Repr, DecidableEq

/-- `COMPort.__post_init__`: only `created_at` is defaulted to the clock;
`last_used` stays `None`. -/
def COMPort.postInit (now : Nat) (p : COMPort) : COMPort :=
  { p with created_at := some (p.created_at.getD now) }

/-- One callback firing of the port monitor (`on_port_removed` is declared in
the source but never invoked, so it has no constructor here). -/
inductive PortEvent where
  | added (p : COMPort)
  | status_changed (p : COMPort)
  deriving Repr, DecidableEq

/-- Mutable state of `PortMonitor`: `self.ports` and `self.port_history`. -/
structure PortState where
  ports : List COMPort := []
  port_history : List COMPort := []
  deriving Repr, DecidableEq

/-- `PortMonitor._find_port_by_name`. -/
def find_port_by_name (ports : List COMPort) (port_name : String) : Option COMPort :=
  ports.find? (fun p => p.port_name == port_name)

/-- In-place mutation of the first record with the given name, modelled as a
functional replacement. -/
def setFirstPortByName (ports : List COMPort) (port_name : String) (p : COMPort) :
    List COMPort :=
  match ports with
  | [] => []
  | x :: xs =>
      if x.port_name == port_name then p :: xs
      else x :: setFirstPortByName xs port_name p

/-- The `else` branch of `_update_port_list`s snapshot loop: a flag change
rewrites `is_available` and fires `on_port_status_changed` (with the record
before the field refresh); then the descriptive fields are refreshed from the
new observation. -/
def update_existing_port (ex cur : COMPort) : COMPort × List PortEvent :=
  let flagged :=
    if ex.is_available != cur.is_available then
      let ex1 := { ex with is_available := cur.is_available }
      (ex1, [PortEvent.status_changed ex1])
    else (ex, ([] : List PortEvent))
  let ex2 := { flagged.1 with
    device_name := cur.device_name
    description := cur.description
    manufacturer := cur.manufacturer
    product_id := cur.product_id
    vendor_id := cur.vendor_id
    serial_number := cur.serial_number }
  (ex2, flagged.2)

/-- Processing of one snapshot entity inside the first loop of
`_update_port_list`. -/
def port_snapshot_step (st : PortState) (cur : COMPort) : PortState × List PortEvent :=
  match find_port_by_name st.ports cur.port_name with
  | none =>
      ({ ports := st.ports ++ [cur], port_history := st.port_history ++ [cur] },
       [PortEvent.added cur])
  | some ex =>
      let upd := update_existing_port ex cur
      ({ st with ports := setFirstPortByName st.ports cur.port_name upd.1 }, upd.2)

/-- First loop of `_update_port_list`. -/
def process_snapshot_ports (st : PortState) (current : List COMPort) :
    PortState × List PortEvent :=
  stepFold port_snapshot_step st current

/-- Per-record body of the second loop of `_update_port_list`: a record whose
name is absent from the snapshot and which is still available is flipped to
unavailable (only `is_available` changes) and `on_port_status_changed`
fires. -/
def mark_missing_port (current : List COMPort) (p : COMPort) :
    COMPort × List PortEvent :=
  if current.any (fun c => c.port_name == p.port_name) then (p, [])
  else if p.is_available then
    let p1 := { p with is_available := false }
    (p1, [PortEvent.status_changed p1])
  else (p, [])

/-- Second loop of `_update_port_list` (each record processed independently;
history untouched). -/
def mark_missing_ports (st : PortState) (current : List COMPort) :
    PortState × List PortEvent :=
  ({ st with ports := st.ports.map (fun p => (mark_missing_port current p).1) },
   (st.ports.map (fun p => (mark_missing_port current p).2)).flatten)

/-- `PortMonitor._update_port_list`. -/
def update_port_list (st : PortState) (current : List COMPort) :
    PortState × List PortEvent :=
  let p1 := process_snapshot_ports st current
  let p2 := mark_missing_ports p1.1 current
  (p2.1, p1.2 ++ p2.2)

/-- `PortMonitor._scan_ports`: a raising provider (`none`) is caught and the
tick is a no-op. -/
def scan_ports (st : PortState) (snapshot : Option (List COMPort)) :
    PortState × List PortEvent :=
  match snapshot with
  | none => (st, [])
  | some current => update_port_list st current

/-- A sequence of port-monitor ticks. -/
def run_port_ticks (ticks : List (Option (List COMPort))) (st : PortState) : PortState :=
  ticks.foldl (fun s t => (scan_ports s t).1) st

/-- `PortMonitor.open_port`.  The serial parameters are computed and handed
to `serial.Serial`, whose outcome is abstracted by `serial_ok` (`false`
models the exception branch, which returns `None` and leaves the state
untouched).  On success the record - if one exists - is marked open and
`last_used` is set, `on_port_status_changed` fires, and a handle (`some ()`)
is returned; `is_available` is never consulted. -/
def open_port (now : Nat) (serial_ok : Bool) (st : PortState) (port_name : String) :
    PortState × List PortEvent × Option Unit :=
  if serial_ok then
    match find_port_by_name st.ports port_name with
    | some p =>
        let p1 := { p with is_open := true, last_used := some now }
        ({ st with ports := setFirstPortByName st.ports port_name p1 },
         [PortEvent.status_changed p1], some ())
    | none => (st, [], some ())
  else (st, [], none)

/-- `PortMonitor.close_port`: look up the record; when found mark it closed
and fire `on_port_status_changed`; always return `True` (the except branch is
unreachable in the model). -/
def close_port (st : PortState) (port_name : String) :
    PortState × List PortEvent × Bool :=
  match find_port_by_name st.ports port_name with
  | some p =>
      let p1 := { p with is_open := false }
      ({ st with ports := setFirstPortByName st.ports port_name p1 },
       [PortEvent.status_changed p1], true)
  | none => (st, [], true)

/-- The speed computation of `_run_speed_test` (guarded divisions, then the
arithmetic mean): returns (write, read, average) in MB/s. -/
def compute_speeds (test_size_mb write_time read_time : Rat) : Rat × Rat × Rat :=
  let write_speed := if write_time > 0 then test_size_mb / write_time else 0
  let read_speed := if read_time > 0 then test_size_mb / read_time else 0
  (write_speed, read_speed, (write_speed + read_speed) / 2)

/-- Dynamic value of the payload expression in `_generate_test_data`,
distinguishing a `bytes` object (content abstracted to the list of byte
values) from an `int`. -/
inductive PyVal where
  | int (n : Nat)
  | bytes (bs : List Nat)
  deriving Repr, DecidableEq

/-- Python subscript-slice `v[:stop]`: on `bytes` it truncates, on `int` it
raises `TypeError`. -/
def pySlice (v : PyVal) (stop : Nat) : Except String PyVal :=
  match v with
  | PyVal.bytes bs => Except.ok (PyVal.bytes (bs.take stop))
  | PyVal.int _ => Except.error "TypeError: int object is not subscriptable"

/-- Python `bytes * v`: repetition for an `int` right operand, `TypeError`
otherwise. -/
def pyBytesMul (bs : List Nat) (v : PyVal) : Except String (List Nat) :=
  match v with
  | PyVal.int k => Except.ok (List.replicate k bs).flatten
  | PyVal.bytes _ => Except.error "TypeError: cannot multiply sequence by non-int"

/-- `USBSpeedTester._generate_test_data`, translated with Python operator
precedence: in `os.urandom(min(size_bytes, 1MiB)) * (size_bytes // 1MiB + 1)[:size_bytes]`
the slice binds to the parenthesized integer, not to the multiplied bytes.
`urandom` abstracts `os.urandom` (content irrelevant here); `int(...)`
truncation of the positive float is `floor`. -/
def generate_test_data (urandom : Nat → List Nat) (size_mb : Rat) :
    Except String (List Nat) :=
  let size_bytes : Nat := (size_mb * (1024 * 1024)).floor.toNat
  let block := urandom (min size_bytes (1024 * 1024))
  match pySlice (PyVal.int (size_bytes / (1024 * 1024) + 1)) size_bytes with
  | Except.error e => Except.error e
  | Except.ok v => pyBytesMul block v

/-- Concrete fixtures used by the witnesses and counterexamples below. -/
def dev_mouse : USBDevice := { name := "Mouse", device_id := "V1P1" }

def dev_old_mfr : USBDevice := { name := "Stick", device_id := "K1", manufacturer := "OldCo" }

def dev_new_mfr : USBDevice := { name := "Stick", device_id := "K1", manufacturer := "NewCo" }

def dev_a : USBDevice := { name := "A", device_id := "IDA" }

def dev_b : USBDevice := { name := "B", device_id := "IDB" }

def port_com3 : COMPort := { port_name := "COM3" }

theorem stepFold_shift {σ ε α : Type} (step : σ → α → σ × List ε) (xs : List α) :
    ∀ (st : σ) (evs : List ε),
      xs.foldl (fun acc x => ((step acc.1 x).1, acc.2 ++ (step acc.1 x).2)) (st, evs)
        = ((stepFold step st xs).1, evs ++ (stepFold step st xs).2) := by
  induction xs with
  | nil => intro st evs; simp [stepFold]
  | cons x xs ih =>
      intro st evs
      simp only [stepFold, List.foldl_cons, List.nil_append]
      rw [ih ((step st x).1) (evs ++ (step st x).2), ih ((step st x).1) ((step st x).2)]
      simp

theorem stepFold_cons {σ ε α : Type} (step : σ → α → σ × List ε) (st : σ) (x : α)
    (xs : List α) :
    stepFold step st (x :: xs)
      = ((stepFold step (step st x).1 xs).1,
         (step st x).2 ++ (stepFold step (step st x).1 xs).2) := by
  simp only [stepFold, List.foldl_cons, List.nil_append]
  exact stepFold_shift step xs (step st x).1 (step st x).2


/-- **C7**: for every positive `size_mb` the generator is claimed to return a
payload of exactly `size_mb * 1048576` bytes without raising; in the code the
slice `[:size_bytes]` binds to the integer repetition count, so every call
raises `TypeError` instead. -/
theorem generate_test_data_always_raises (urandom : Nat → List Nat) (size_mb : Rat) :
    generate_test_data urandom size_mb
      = Except.error "TypeError: int object is not subscriptable" := rfl

/-- **C8**: with positive measured phase times, `write_speed_mbps = size_mb /
write_seconds`, `read_speed_mbps = size_mb / read_seconds` and the average is
their arithmetic mean; at `size_mb = 100`, `write_seconds = 2`,
`read_seconds = 4` this gives `(50, 25, 37.5)`. -/
theorem compute_speeds_correct (test_size_mb write_time read_time : Rat)
    (hw : 0 < write_time) (hr : 0 < read_time) :
    compute_speeds test_size_mb write_time read_time
        = (test_size_mb / write_time, test_size_mb / read_time,
           (test_size_mb / write_time + test_size_mb / read_time) / 2)
      ∧ compute_speeds 100 2 4 = (50, 25, 75 / 2) := by
  constructor
  · simp [compute_speeds, hw, hr]
  · norm_num [compute_speeds]

/-- Witness for `compute_speeds_correct` at the concrete figures of P5. -/
theorem compute_speeds_correct_witness :
    compute_speeds 100 2 4
        = (100 / 2, 100 / 4, (100 / 2 + 100 / 4) / 2)
      ∧ compute_speeds 100 2 4 = (50, 25, 75 / 2) :=
  compute_speeds_correct 100 2 4 (by norm_num) (by norm_num)

/-- **C10**: `close_port` on a name that matches no record returns `True`,
leaves every port record unchanged and fires no callback. -/
theorem close_port_unknown_name (st : PortState) (port_name : String)
    (h : find_port_by_name st.ports port_name = none) :
    close_port st port_name = (st, [], true) := by
  simp [close_port, h]

/-- Witness for `close_port_unknown_name` on an empty monitor. -/
theorem close_port_unknown_name_witness :
    close_port {} "COM9" = ({}, [], true) :=
  close_port_unknown_name {} "COM9" (by decide)

/-- **C1 (counterexample)**: the claim treats an empty snapshot list like a
provider failure (a no-op tick); in the code an empty list is reconciled
normally, so a connected device is flipped to disconnected and the disconnect
callback fires. -/
theorem scan_devices_empty_not_noop :
    ((scan_devices 2 { devices := [dev_mouse], device_history := [dev_mouse] }
        (some [])).1.devices.map (fun d => d.is_connected)) = [false]
      ∧ (scan_devices 2 { devices := [dev_mouse], device_history := [dev_mouse] }
          (some [])).2 ≠ [] := by
  decide

theorem mark_missing_events_empty (l : List USBDevice) :
    (l.map (fun d => (mark_missing_device [] d).2)).flatten
      = (l.filter (fun d => d.is_connected)).map
          (fun d => DevEvent.disconnected
            { d with is_connected := false, connection_status := "Disconnected" }) := by
  induction l with
  | nil => rfl
  | cons d l ih =>
      simp only [List.map_cons, List.flatten_cons, ih, List.filter_cons]
      by_cases hc : d.is_connected <;> simp [mark_missing_device, hc]

/-- **C1 (amended)**: only a raising Snapshot Provider is a no-op tick (state
and callbacks); an empty snapshot list is reconciled normally: the history is
untouched, every still-connected record is flipped to disconnected (all other
fields kept), and exactly one disconnect callback fires per still-connected
record, in list order, carrying the flipped record - and nothing else
fires. -/
theorem scan_devices_provider_failure (now : Nat) (st : DevState) :
    scan_devices now st none = (st, [])
      ∧ (scan_devices now st (some [])).1.devices
          = st.devices.map (fun d =>
              if d.is_connected then
                { d with is_connected := false, connection_status := "Disconnected" }
              else d)
      ∧ (scan_devices now st (some [])).1.device_history = st.device_history
      ∧ (scan_devices now st (some [])).2
          = (st.devices.filter (fun d => d.is_connected)).map
              (fun d => DevEvent.disconnected
                { d with is_connected := false, connection_status := "Disconnected" }) := by
  refine ⟨rfl, ?_, ?_, ?_⟩
  · simp only [scan_devices, update_device_list, process_snapshot_devices, stepFold,
      List.foldl_nil, mark_missing_devices]
    refine List.map_congr_left ?_
    intro a _
    by_cases hc : a.is_connected <;> simp [mark_missing_device, hc]
  · simp [scan_devices, update_device_list, process_snapshot_devices, stepFold,
      mark_missing_devices]
  · simp only [scan_devices, update_device_list, process_snapshot_devices, stepFold,
      List.foldl_nil, mark_missing_devices, List.nil_append]
    exact mark_missing_events_empty st.devices

/-- **C2 (counterexample)**: the claim says a matched same-flag snapshot
entity refreshes the descriptive fields of the existing record; the device
monitor leaves them untouched (the snapshot carried manufacturer `NewCo`, the
record keeps `OldCo`). -/
theorem device_descriptive_fields_not_refreshed :
    ((update_device_list 3 { devices := [dev_old_mfr], device_history := [dev_old_mfr] }
        [dev_new_mfr]).1.devices.map (fun d => d.manufacturer)) = ["OldCo"]
      ∧ dev_new_mfr.manufacturer = "NewCo" := by
  decide

/-- **C2 (amended)**: a matched snapshot entity with an unchanged
availability/connection flag fires no transition callback; the port monitor
refreshes the descriptive fields from the new observation (and fires nothing
at all), while the device monitor only refreshes `last_seen` (and fires the
unconditional `on_device_updated`), leaving descriptive fields as they were;
identity keys, `first_seen`/`created_at` and the history are preserved in
both. -/
theorem same_flag_update_behaviour :
    (∀ (now : Nat) (st : DevState) (cur ex : USBDevice),
        find_device_by_id st.devices cur.device_id = some ex →
        ex.is_connected = cur.is_connected →
        device_snapshot_step now st cur
          = ({ st with devices := (setFirstDeviceById st.devices cur.device_id
                 { ex with last_seen := some now }) },
             [DevEvent.updated { ex with last_seen := some now }]))
  ∧ (∀ (st : PortState) (cur ex : COMPort),
        find_port_by_name st.ports cur.port_name = some ex →
        ex.is_available = cur.is_available →
        port_snapshot_step st cur
          = ({ st with ports := (setFirstPortByName st.ports cur.port_name
                 { ex with
                   device_name := cur.device_name
                   description := cur.description
                   manufacturer := cur.manufacturer
                   product_id := cur.product_id
                   vendor_id := cur.vendor_id
                   serial_number := cur.serial_number }) },
             ([] : List PortEvent))) := by
  constructor
  · intro now st cur ex h hflag
    unfold device_snapshot_step
    rw [h]
    simp [update_existing_device, hflag]
  · intro st cur ex h hflag
    unfold port_snapshot_step
    rw [h]
    simp [update_existing_port, hflag]

/-- Witness for `same_flag_update_behaviour`: the `OldCo` record matched by
the same-flag `NewCo` observation keeps its fields and only gains
`last_seen`. -/
theorem same_flag_update_behaviour_witness :
    device_snapshot_step 3 { devices := [dev_old_mfr], device_history := [dev_old_mfr] }
        dev_new_mfr
      = ({ devices := [{ dev_old_mfr with last_seen := some 3 }]
           device_history := [dev_old_mfr] },
         [DevEvent.updated { dev_old_mfr with last_seen := some 3 }]) :=
  same_flag_update_behaviour.1 3
    { devices := [dev_old_mfr], device_history := [dev_old_mfr] }
    dev_new_mfr dev_old_mfr (by decide) (by decide)

/-- **C3 (counterexample)**: the claimed invariant `is_open = true →
is_available = true` is violated in a reachable state: discover COM3, open it
(open succeeds), then reconcile an empty snapshot - the record ends open and
unavailable. -/
theorem open_unavailable_port_reachable :
    ((update_port_list
        (open_port 5 true (update_port_list {} [port_com3]).1 "COM3").1
        []).1.ports.map (fun p => (p.is_open, p.is_available))) = [(true, false)] := by
  decide

/-- **C3 (amended)**: the code does not maintain the claimed invariant: a
reconciliation pass over an empty snapshot flips `is_available` of every
available record to `false` and changes nothing else (in particular `is_open`
is kept), and a successful `open_port` marks the record open and fires the
status callback without consulting `is_available`. -/
theorem port_open_available_not_coupled :
    (∀ st : PortState, (update_port_list st []).1.ports
        = st.ports.map (fun p =>
            if p.is_available then { p with is_available := false } else p))
  ∧ (∀ (now : Nat) (st : PortState) (port_name : String) (ex : COMPort),
        find_port_by_name st.ports port_name = some ex →
        open_port now true st port_name
          = ({ st with ports := (setFirstPortByName st.ports port_name
                 { ex with is_open := true, last_used := some now }) },
             [PortEvent.status_changed { ex with is_open := true, last_used := some now }],
             some ())) := by
  constructor
  · intro st
    simp only [update_port_list, process_snapshot_ports, stepFold, List.foldl_nil,
      mark_missing_ports]
    refine List.map_congr_left ?_
    intro p _
    by_cases hp : p.is_available <;> simp [mark_missing_port, hp]
  · intro now st port_name ex h
    simp [open_port, h]

/-- Witness for `port_open_available_not_coupled`: opening a port whose
record is already unavailable still marks it open. -/
theorem port_open_available_not_coupled_witness :
    open_port 5 true
        { ports := [{ port_name := "COM3", is_available := false }], port_history := [] }
        "COM3"
      = ({ ports := [{ port_name := "COM3", is_available := false, is_open := true,
                       last_used := some 5 }]
           port_history := [] },
         [PortEvent.status_changed
            { port_name := "COM3", is_available := false, is_open := true,
              last_used := some 5 }],
         some ()) :=
  port_open_available_not_coupled.2 5
    { ports := [{ port_name := "COM3", is_available := false }], port_history := [] }
    "COM3" { port_name := "COM3", is_available := false } (by decide)

/-- **C5 (counterexample)**: the claim orders all new-entity callbacks before
all update callbacks; the snapshot loop interleaves them in snapshot order,
so a snapshot `[known A, fresh B]` fires `on_device_updated(A)` before
`on_device_connected(B)` although B is a previously unseen key. -/
theorem update_fires_before_new_entity :
    (update_device_list 2 { devices := [dev_a], device_history := [dev_a] }
        [dev_a, dev_b]).2
      = [DevEvent.updated { dev_a with last_seen := some 2 },
         DevEvent.connected dev_b]
      ∧ find_device_by_id [dev_a] dev_b.device_id = none := by
  decide

/-- **C5 (amended)**: within one reconciliation pass the callbacks are the
snapshot-loop callbacks (new-entity and update, interleaved in snapshot
order) followed by the disappearance callbacks, and every callback of the
disappearance phase is a disconnect (devices) or status-change (ports)
firing. -/
theorem pass_callback_phases :
    (∀ (now : Nat) (st : DevState) (current : List USBDevice),
        (update_device_list now st current).2
          = (process_snapshot_devices now st current).2
              ++ (mark_missing_devices (process_snapshot_devices now st current).1 current).2)
  ∧ (∀ (st : DevState) (current : List USBDevice) (e : DevEvent),
        e ∈ (mark_missing_devices st current).2 → ∃ d, e = DevEvent.disconnected d)
  ∧ (∀ (st : PortState) (current : List COMPort),
        (update_port_list st current).2
          = (process_snapshot_ports st current).2
              ++ (mark_missing_ports (process_snapshot_ports st current).1 current).2)
  ∧ (∀ (st : PortState) (current : List COMPort) (e : PortEvent),
        e ∈ (mark_missing_ports st current).2 → ∃ p, e = PortEvent.status_changed p) := by
  refine ⟨fun now st current => rfl, ?_, fun st current => rfl, ?_⟩
  · intro st current e he
    simp only [mark_missing_devices, List.mem_flatten, List.mem_map] at he
    obtain ⟨l, ⟨d, _, hd⟩, hel⟩ := he
    rw [← hd] at hel
    by_cases ha : current.any (fun c => c.device_id == d.device_id)
    · simp [mark_missing_device, ha] at hel
    · by_cases hc : d.is_connected
      · simp [mark_missing_device, ha, hc] at hel
        exact ⟨_, hel⟩
      · simp [mark_missing_device, ha, hc] at hel
  · intro st current e he
    simp only [mark_missing_ports, List.mem_flatten, List.mem_map] at he
    obtain ⟨l, ⟨p, _, hp⟩, hel⟩ := he
    rw [← hp] at hel
    by_cases ha : current.any (fun c => c.port_name == p.port_name)
    · simp [mark_missing_port, ha] at hel
    · by_cases hv : p.is_available
      · simp [mark_missing_port, ha, hv] at hel
        exact ⟨_, hel⟩
      · simp [mark_missing_port, ha, hv] at hel

/-- Witness for `pass_callback_phases`: the disappearance-phase event fired
for the vanished device A is a disconnect callback. -/
theorem pass_callback_phases_witness :
    ∃ d, DevEvent.disconnected
        { dev_a with is_connected := false, connection_status := "Disconnected" }
      = DevEvent.disconnected d :=
  pass_callback_phases.2.1 { devices := [dev_a], device_history := [dev_a] } []
    (DevEvent.disconnected
      { dev_a with is_connected := false, connection_status := "Disconnected" })
    (by decide)

theorem device_step_history (now : Nat) (st : DevState) (cur : USBDevice) :
    (device_snapshot_step now st cur).1.device_history
      = st.device_history
          ++ (if find_device_by_id st.devices cur.device_id = none then [cur] else []) := by
  unfold device_snapshot_step
  cases h : find_device_by_id st.devices cur.device_id <;> simp [h]

theorem process_devices_history (now : Nat) (current : List USBDevice) :
    ∀ st : DevState, ∃ l, (process_snapshot_devices now st current).1.device_history
      = st.device_history ++ l := by
  induction current with
  | nil => intro st; exact ⟨[], by simp [process_snapshot_devices, stepFold]⟩
  | cons c cs ih =>
      intro st
      obtain ⟨l, hl⟩ := ih (device_snapshot_step now st c).1
      refine ⟨(if find_device_by_id st.devices c.device_id = none then [c] else []) ++ l, ?_⟩
      have hc : (process_snapshot_devices now st (c :: cs)).1
          = (process_snapshot_devices now (device_snapshot_step now st c).1 cs).1 := by
        simp [process_snapshot_devices, stepFold_cons]
      rw [hc, hl, device_step_history, List.append_assoc]

theorem update_device_list_history (now : Nat) (st : DevState) (current : List USBDevice) :
    ∃ l, (update_device_list now st current).1.device_history = st.device_history ++ l := by
  obtain ⟨l, hl⟩ := process_devices_history now current st
  exact ⟨l, by simp [update_device_list, mark_missing_devices, hl]⟩

theorem run_device_ticks_mono (ticks : List (Nat × Option (List USBDevice))) :
    ∀ st : DevState,
      st.device_history.length ≤ (run_device_ticks ticks st).device_history.length := by
  induction ticks with
  | nil => intro st; simp [run_device_ticks]
  | cons t ts ih =>
      intro st
      have h1 : st.device_history.length
          ≤ (scan_devices t.1 st t.2).1.device_history.length := by
        cases ht : t.2 with
        | none => simp [scan_devices]
        | some cur =>
            obtain ⟨l, hl⟩ := update_device_list_history t.1 st cur
            simp [scan_devices, hl]
      have h3 : run_device_ticks (t :: ts) st
          = run_device_ticks ts (scan_devices t.1 st t.2).1 := by
        simp [run_device_ticks]
      rw [h3]
      exact le_trans h1 (ih (scan_devices t.1 st t.2).1)

theorem port_step_history (st : PortState) (cur : COMPort) :
    (port_snapshot_step st cur).1.port_history
      = st.port_history
          ++ (if find_port_by_name st.ports cur.port_name = none then [cur] else []) := by
  unfold port_snapshot_step
  cases h : find_port_by_name st.ports cur.port_name <;> simp [h]

theorem process_ports_history (current : List COMPort) :
    ∀ st : PortState, ∃ l, (process_snapshot_ports st current).1.port_history
      = st.port_history ++ l := by
  induction current with
  | nil => intro st; exact ⟨[], by simp [process_snapshot_ports, stepFold]⟩
  | cons c cs ih =>
      intro st
      obtain ⟨l, hl⟩ := ih (port_snapshot_step st c).1
      refine ⟨(if find_port_by_name st.ports c.port_name = none then [c] else []) ++ l, ?_⟩
      have hc : (process_snapshot_ports st (c :: cs)).1
          = (process_snapshot_ports (port_snapshot_step st c).1 cs).1 := by
        simp [process_snapshot_ports, stepFold_cons]
      rw [hc, hl, port_step_history, List.append_assoc]

theorem update_port_list_history (st : PortState) (current : List COMPort) :
    ∃ l, (update_port_list st current).1.port_history = st.port_history ++ l := by
  obtain ⟨l, hl⟩ := process_ports_history current st
  exact ⟨l, by simp [update_port_list, mark_missing_ports, hl]⟩

theorem run_port_ticks_mono (ticks : List (Option (List COMPort))) :
    ∀ st : PortState,
      st.port_history.length ≤ (run_port_ticks ticks st).port_history.length := by
  induction ticks with
  | nil => intro st; simp [run_port_ticks]
  | cons t ts ih =>
      intro st
      have h1 : st.port_history.length ≤ (scan_ports st t).1.port_history.length := by
        cases ht : t with
        | none => simp [scan_ports]
        | some cur =>
            obtain ⟨l, hl⟩ := update_port_list_history st cur
            simp [scan_ports, hl]
      have h3 : run_port_ticks (t :: ts) st = run_port_ticks ts (scan_ports st t).1 := by
        simp [run_port_ticks]
      rw [h3]
      exact le_trans h1 (ih (scan_ports st t).1)

/-- **C6**: over any tick sequence the history length is non-decreasing; one
snapshot-entity step grows it by exactly one precisely when the identity key
matches no existing record (devices and ports alike); and the
disappear-then-reappear scenario appends no duplicate history entry. -/
theorem history_append_only :
    (∀ (ticks : List (Nat × Option (List USBDevice))) (st : DevState),
        st.device_history.length ≤ (run_device_ticks ticks st).device_history.length)
  ∧ (∀ (now : Nat) (st : DevState) (cur : USBDevice),
      (device_snapshot_step now st cur).1.device_history.length
        = st.device_history.length
            + (if find_device_by_id st.devices cur.device_id = none then 1 else 0))
  ∧ (∀ (ticks : List (Option (List COMPort))) (st : PortState),
        st.port_history.length ≤ (run_port_ticks ticks st).port_history.length)
  ∧ (∀ (st : PortState) (cur : COMPort),
      (port_snapshot_step st cur).1.port_history.length
        = st.port_history.length
            + (if find_port_by_name st.ports cur.port_name = none then 1 else 0))
  ∧ (run_device_ticks
        [(1, some [dev_mouse]), (2, some []), (3, some [dev_mouse])]
        {}).device_history.length = 1 := by
  refine ⟨run_device_ticks_mono, ?_, run_port_ticks_mono, ?_, by decide⟩
  · intro now st cur
    rw [device_step_history]
    by_cases h : find_device_by_id st.devices cur.device_id = none <;> simp [h]
  · intro st cur
    rw [port_step_history]
    by_cases h : find_port_by_name st.ports cur.port_name = none <;> simp [h]

